import Mathlib

/-!
Verification development for the `gif_psc_exp` neuron model
(`src/models/gif_psc_exp.h`, NEST simulator).

The data structures (`Parameters`, `State`, `Variables`, `Buffers`, the
neuron aggregate) are shallow embeddings of the C++ structs `Parameters_`,
`State_`, `Variables_`, `Buffers_` declared in the header.  The inline
member functions of the header (`set_status`, `handles_test_event`, the
recordable accessors) are embedded directly from their source.  The bodies
that live in the corresponding `.cpp` translation unit (the per-step
`update`, `calibrate`, `Parameters_::set`, `State_::set`, and the
`RingBuffer` used by `Buffers_`) are not part of the inspected sources and
are modelled from the specification; each such definition carries a doc
comment starting with `Modelled from the spec:`.

All numeric computation is embedded generically over a linear ordered
field `K`, with the exponential function passed explicitly (`eexp`), so
that the same definitions are executable at `K = ℚ` and instantiate to the
real-number semantics at `K = ℝ` with `eexp = Real.exp`.
-/

set_option linter.unusedSectionVars false
set_option linter.unusedVariables false

namespace GifPsc

/-- Error taxonomy: `badProperty` stands for the configuration error thrown
by the property setters (`BadProperty` in NEST), `unknownReceptorType r`
for the `UnknownReceptorType` exception thrown by `handles_test_event`. -/
inductive NestError where
  | badProperty
  | unknownReceptorType (r : Int)
deriving DecidableEq

/-- Embedding of `Parameters_` (src/models/gif_psc_exp.h lines 173-214).
The spike-triggered-current channels and the threshold-adaptation channels
are stored, exactly as in the source, as *four separate vectors*
`tau_stc_`, `q_stc_`, `tau_sfa_`, `q_sfa_`. -/
structure Parameters (K : Type) where
  g_L : K
  E_L : K
  V_reset : K
  delta_u : K
  v_t_star : K
  lambda0 : K
  t_ref : K
  c_m : K
  tau_stc : List K
  q_stc : List K
  tau_sfa : List K
  q_sfa : List K
  tau_ex : K
  tau_in : K
  I_e : K

/-- Embedding of `State_` (src/models/gif_psc_exp.h lines 221-242).
`y0` is the piecewise-constant external current, `y3` the membrane
potential relative to rest, `q` the adaptation ("sfa") total, `stc` the
spike-triggered-current total; `init_flag` embeds the source field
`initialized_` (renamed), `add_stc_sfa` the homonymous source field. -/
structure State (K : Type) where
  y0 : K
  y3 : K
  q : K
  stc : K
  q_sfa_elems : List K
  q_stc_elems : List K
  i_syn_ex : K
  i_syn_in : K
  r_ref : Int
  init_flag : Bool
  add_stc_sfa : Bool

/-- Embedding of `Variables_` (src/models/gif_psc_exp.h lines 267-288):
the precomputed propagator coefficients, the per-channel decay factors
`Q33` (sfa) and `Q44` (stc), the step size `h` and `RefractoryCounts`. -/
structure Variables (K : Type) where
  P30 : K
  P33 : K
  P31 : K
  P11ex : K
  P11in : K
  P21ex : K
  P21in : K
  Q33 : List K
  Q44 : List K
  h : K
  RefractoryCounts : Int

/-- Modelled from the spec: the status dictionary handed to
`set_status`/`Parameters_::set`/`State_::set`.  The generic
`DictionaryDatum` type is external to the inspected sources; it is
modelled as an optional value per documented parameter name
(header documentation lines 91-113), plus the membrane potential `V_m`
for the state. -/
structure Dict (K : Type) where
  C_m : Option K := none
  t_ref : Option K := none
  V_reset : Option K := none
  E_L : Option K := none
  g_L : Option K := none
  I_e : Option K := none
  q_stc : Option (List K) := none
  tau_stc : Option (List K) := none
  q_sfa : Option (List K) := none
  tau_sfa : Option (List K) := none
  delta_u : Option K := none
  lambda0 : Option K := none
  v_t_star : Option K := none
  tau_syn_ex : Option K := none
  tau_syn_in : Option K := none
  V_m : Option K := none

/-- Modelled from the spec: the per-step input aggregation of
`Buffers_`'s ring buffers (`spikes_ex_`, `spikes_in_`, `currents_`,
`ring_buffer.h` is not among the inspected sources).  Each slot holds the
additively merged total for one target step. -/
structure InputAccumulator (K : Type) where
  ex : Nat → K
  inh : Nat → K
  cur : Nat → K

/-- Embedding of `Buffers_` (src/models/gif_psc_exp.h lines 249-260):
the input ring buffers (as an `InputAccumulator`) and the data logger,
modelled by the number of logging-device connections made. -/
structure Buffers (K : Type) where
  acc : InputAccumulator K
  logger_conns : Nat

/-- The neuron aggregate: embedding of the `gif_psc_exp` data members
`P_`, `S_`, `V_`, `B_` (src/models/gif_psc_exp.h lines 319-322). -/
structure Neuron (K : Type) where
  P : Parameters K
  S : State K
  V : Variables K
  B : Buffers K

/-- One step's inputs: the accumulated excitatory and inhibitory weights,
the current command, and the uniform random draw supplied by the caller's
random source. -/
structure StepInput (K : Type) where
  ex_sum : K
  in_sum : K
  cur : K
  u : K

/-- Result of a (possibly throwing) mutating member call: on `err` the
C++ exception propagates and the carried neuron is the object's state at
the moment of the throw. -/
inductive SetResult (K : Type) where
  | ok (n : Neuron K)
  | err (e : NestError) (n : Neuron K)

variable {K : Type} [LinearOrderedField K] [FloorRing K]

/-- Modelled from the spec: the update part of `Parameters_::set` (body
in the missing translation unit) — every key present in the dictionary
overwrites the corresponding parameter field. -/
def apply_dict (P : Parameters K) (d : Dict K) : Parameters K :=
  { g_L := d.g_L.getD P.g_L
    E_L := d.E_L.getD P.E_L
    V_reset := d.V_reset.getD P.V_reset
    delta_u := d.delta_u.getD P.delta_u
    v_t_star := d.v_t_star.getD P.v_t_star
    lambda0 := d.lambda0.getD P.lambda0
    t_ref := d.t_ref.getD P.t_ref
    c_m := d.C_m.getD P.c_m
    tau_stc := d.tau_stc.getD P.tau_stc
    q_stc := d.q_stc.getD P.q_stc
    tau_sfa := d.tau_sfa.getD P.tau_sfa
    q_sfa := d.q_sfa.getD P.q_sfa
    tau_ex := d.tau_syn_ex.getD P.tau_ex
    tau_in := d.tau_syn_in.getD P.tau_in
    I_e := d.I_e.getD P.I_e }

/-- Modelled from the spec: the sign checks of `Parameters_::set`
(§3 constraints): capacitance, conductance, stochasticity scale,
synaptic and channel time constants must be positive, refractory
duration and baseline intensity non-negative. -/
def params_pos_ok (P : Parameters K) : Bool :=
  decide (0 < P.c_m) && decide (0 < P.g_L) && decide (0 < P.delta_u) &&
  decide (0 ≤ P.lambda0) && decide (0 ≤ P.t_ref) &&
  decide (0 < P.tau_ex) && decide (0 < P.tau_in) &&
  P.tau_stc.all (fun t => decide (0 < t)) &&
  P.tau_sfa.all (fun t => decide (0 < t))

/-- Modelled from the spec: `Parameters_::set` (declared at
src/models/gif_psc_exp.h line 213, body in the missing translation
unit) — apply the dictionary to a copy, then validate: mismatched
time-constant/jump list lengths (§6, §8) and sign violations (§3) raise
the configuration error. -/
def Parameters.set (P : Parameters K) (d : Dict K) :
    Except NestError (Parameters K) :=
  if (apply_dict P d).tau_stc.length ≠ (apply_dict P d).q_stc.length then
    .error .badProperty
  else if (apply_dict P d).tau_sfa.length ≠ (apply_dict P d).q_sfa.length then
    .error .badProperty
  else if params_pos_ok (apply_dict P d) then .ok (apply_dict P d)
  else .error .badProperty

/-- Modelled from the spec: `State_::set` (declared at
src/models/gif_psc_exp.h line 241, body in the missing translation
unit) — apply the dictionary under the candidate parameters, re-sizing
the per-channel element vectors (zero-filled) whenever the channel count
of the candidate parameter set differs, and recomputing the totals from
the elements. -/
def State.set (S : State K) (d : Dict K) (P : Parameters K) :
    Except NestError (State K) :=
  let sfaE := if S.q_sfa_elems.length = P.tau_sfa.length
    then S.q_sfa_elems else List.replicate P.tau_sfa.length 0
  let stcE := if S.q_stc_elems.length = P.tau_stc.length
    then S.q_stc_elems else List.replicate P.tau_stc.length 0
  .ok { S with
    y3 := d.V_m.getD S.y3
    q_sfa_elems := sfaE
    q_stc_elems := stcE
    q := sfaE.sum
    stc := stcE.sum }

/-- Embedding of `gif_psc_exp::set_status`
(src/models/gif_psc_exp.h lines 373-390): the candidate parameters and
state are built and validated on temporaries; the base-class call
(`Archiving_Node::set_status`, external, passed here as `arch`) runs
before commit; only when everything succeeded are `P_` and `S_`
overwritten.  A thrown error leaves the object exactly as it was. -/
def set_status (arch : Dict K → Except NestError Unit)
    (n : Neuron K) (d : Dict K) : SetResult K :=
  match Parameters.set n.P d with
  | .error e => .err e n
  | .ok ptmp =>
    match State.set n.S d ptmp with
    | .error e => .err e n
    | .ok stmp =>
      match arch d with
      | .error e => .err e n
      | .ok _ => .ok { n with P := ptmp, S := stmp }

/-- Modelled from the spec: the coefficient computation of `calibrate`
(declared at src/models/gif_psc_exp.h line 160, body in the missing
translation unit; spec §4.1, §3).  `P33 = exp(-h·g_L/c_m)` is the
membrane decay, `P11ex/P11in = exp(-h/tau_syn)` the synaptic decays,
`Q33`/`Q44` the per-channel sfa/stc decay factors, `RefractoryCounts =
round(t_ref/h)`; `P30` is the exact response of the membrane to a
constant current over `h` and `P31`, `P21ex`, `P21in` the exact coupling
coefficients translating one step of constant stc/synaptic current into
membrane-potential change (spec §4.1 gives no closed formulas for the
couplings; the standard constant-current response is used, negated for
the stc current, which enters the membrane equation with a minus sign). -/
def make_variables (eexp : K → K) (P : Parameters K) (h : K) : Variables K :=
  let P33 := eexp (-(h * P.g_L) / P.c_m)
  { P30 := (1 - P33) / P.g_L
    P33 := P33
    P31 := -((1 - P33) / P.g_L)
    P11ex := eexp (-h / P.tau_ex)
    P11in := eexp (-h / P.tau_in)
    P21ex := (1 - P33) / P.g_L
    P21in := (1 - P33) / P.g_L
    Q33 := P.tau_sfa.map (fun t => eexp (-h / t))
    Q44 := P.tau_stc.map (fun t => eexp (-h / t))
    h := h
    RefractoryCounts := round (P.t_ref / h) }

/-- Modelled from the spec: the validation performed by `calibrate`
(spec §4.1): the step size and every time constant must be positive. -/
def calib_ok (P : Parameters K) (h : K) : Bool :=
  decide (0 < h) && decide (0 < P.tau_ex) && decide (0 < P.tau_in) &&
  P.tau_sfa.all (fun t => decide (0 < t)) &&
  P.tau_stc.all (fun t => decide (0 < t))

/-- Modelled from the spec: `calibrate` (spec §4.1) — validate, then
replace the propagator coefficients atomically; fail with the
configuration error on any non-positive time constant or step size. -/
def calibrate (eexp : K → K) (P : Parameters K) (h : K) :
    Except NestError (Variables K) :=
  if calib_ok P h then .ok (make_variables eexp P h) else .error .badProperty

/-- One step of per-channel exponential decay (spec §4.4 steps 2-3):
each element is multiplied by its decay factor. -/
def decay_elems (elems Q : List K) : List K :=
  List.zipWith (fun e d => e * d) elems Q

/-- One step of per-channel decay followed by the post-spike jump
(spec §4.4 step 3, firing case): `x_i ← x_i·decay_i + jump_i`. -/
def decay_jump_elems (elems Q jumps : List K) : List K :=
  List.zipWith (fun e dj => e * dj.1 + dj.2) elems (Q.zip jumps)

/-- The sub-threshold membrane propagation of spec §4.4 step 3:
`V' = P33·V + P31·stc_total + P30·I_ext + P21ex·i_syn_ex + P21in·i_syn_in`. -/
def propagate_V (Vb : Variables K) (S : State K) : K :=
  Vb.P33 * S.y3 + Vb.P31 * S.stc + Vb.P30 * S.y0 +
    Vb.P21ex * S.i_syn_ex + Vb.P21in * S.i_syn_in

/-- Modelled from the spec: the StochasticSpikeGenerator probability
(spec §4.3) — instantaneous intensity `λ = lambda0·exp((V−V_T)/delta_u)`,
per-step firing probability `1 − exp(−λ·h)` clamped to `[0,1]`. -/
def firing_prob (eexp : K → K) (P : Parameters K) (h V V_T : K) : K :=
  min 1 (max 0 (1 - eexp (-(P.lambda0 * eexp ((V - V_T) / P.delta_u) * h))))

/-- Modelled from the spec: the refractory branch of one update step
(spec §4.4 step 2 plus the common steps 4-6): decrement `r_ref`, hold
the membrane at `V_reset`, decay the adaptation channels, decay-then-
inject the synaptic currents, latch the current command. -/
def refractory_step (P : Parameters K) (Vb : Variables K) (S : State K)
    (exs ins curs : K) : State K :=
  let sfaE := decay_elems S.q_sfa_elems Vb.Q33
  let stcE := decay_elems S.q_stc_elems Vb.Q44
  { S with
    r_ref := S.r_ref - 1
    y3 := P.V_reset
    q_sfa_elems := sfaE
    q_stc_elems := stcE
    q := sfaE.sum
    stc := stcE.sum
    i_syn_ex := S.i_syn_ex * Vb.P11ex + exs
    i_syn_in := S.i_syn_in * Vb.P11in + ins
    y0 := curs }

/-- Modelled from the spec: the firing branch of one update step
(spec §4.4 step 3, firing case, plus steps 4-6): reset the membrane,
arm the refractory counter, decay-and-jump every adaptation channel,
recompute the totals, decay-then-inject the synaptic currents, latch
the current command. -/
def fire_step (P : Parameters K) (Vb : Variables K) (S : State K)
    (exs ins curs : K) : State K :=
  let sfaE := decay_jump_elems S.q_sfa_elems Vb.Q33 P.q_sfa
  let stcE := decay_jump_elems S.q_stc_elems Vb.Q44 P.q_stc
  { S with
    y3 := P.V_reset
    r_ref := Vb.RefractoryCounts
    q_sfa_elems := sfaE
    q_stc_elems := stcE
    q := sfaE.sum
    stc := stcE.sum
    i_syn_ex := S.i_syn_ex * Vb.P11ex + exs
    i_syn_in := S.i_syn_in * Vb.P11in + ins
    y0 := curs }

/-- Modelled from the spec: the non-firing integrating branch of one
update step (spec §4.4 step 3, non-firing case, plus steps 4-6):
commit the propagated membrane potential, decay every adaptation
channel, recompute the totals, decay-then-inject the synaptic
currents, latch the current command. -/
def nofire_step (P : Parameters K) (Vb : Variables K) (S : State K)
    (exs ins curs : K) : State K :=
  let sfaE := decay_elems S.q_sfa_elems Vb.Q33
  let stcE := decay_elems S.q_stc_elems Vb.Q44
  { S with
    y3 := propagate_V Vb S
    q_sfa_elems := sfaE
    q_stc_elems := stcE
    q := sfaE.sum
    stc := stcE.sum
    i_syn_ex := S.i_syn_ex * Vb.P11ex + exs
    i_syn_in := S.i_syn_in * Vb.P11in + ins
    y0 := curs }

/-- Modelled from the spec: one step of the UpdateLoop (`update`,
declared at src/models/gif_psc_exp.h line 162, body in the missing
translation unit; spec §4.4).  Inputs are the already-consumed
accumulator sums and the uniform draw `u` from the caller-supplied
random source; the returned boolean says whether a spike was emitted. -/
def update_step (eexp : K → K) (P : Parameters K) (Vb : Variables K)
    (S : State K) (exs ins curs u : K) : State K × Bool :=
  if 0 < S.r_ref then
    (refractory_step P Vb S exs ins curs, false)
  else if u < firing_prob eexp P Vb.h (propagate_V Vb S) (P.v_t_star + S.q) then
    (fire_step P Vb S exs ins curs, true)
  else
    (nofire_step P Vb S exs ins curs, false)

/-- Iterated update: `run_update … inp S n` is the state after the
first `n` steps, step `k` consuming `inp k`. -/
def run_update (eexp : K → K) (P : Parameters K) (Vb : Variables K)
    (inp : Nat → StepInput K) (S : State K) : Nat → State K
  | 0 => S
  | n + 1 =>
    (update_step eexp P Vb (run_update eexp P Vb inp S n)
      (inp n).ex_sum (inp n).in_sum (inp n).cur (inp n).u).1

/-- Modelled from the spec: the default-initialized `State_`
(constructor declared at src/models/gif_psc_exp.h line 238, body in the
missing translation unit; spec §3 NeuronState lifecycle) — zeroed
scalars and zeroed per-channel elements sized to the parameter lists. -/
def init_state (P : Parameters K) : State K :=
  { y0 := 0
    y3 := 0
    q := 0
    stc := 0
    q_sfa_elems := List.replicate P.tau_sfa.length 0
    q_stc_elems := List.replicate P.tau_stc.length 0
    i_syn_ex := 0
    i_syn_in := 0
    r_ref := 0
    init_flag := true
    add_stc_sfa := false }

/-- The NeuronState invariant of spec §3: the per-channel element
sequences match the parameter lists in length and the totals are the
sums of their elements. -/
def state_inv (P : Parameters K) (S : State K) : Prop :=
  S.q_sfa_elems.length = P.tau_sfa.length ∧
  S.q_stc_elems.length = P.tau_stc.length ∧
  S.q = S.q_sfa_elems.sum ∧
  S.stc = S.q_stc_elems.sum

/-- The empty accumulator: every slot of every input class is zero. -/
def InputAccumulator.empty : InputAccumulator K :=
  { ex := fun _ => 0, inh := fun _ => 0, cur := fun _ => 0 }

/-- One write into the accumulator: an excitatory spike weight, an
inhibitory spike weight, or a current command, each keyed by its target
step (spec §4.2, §6). -/
inductive Write (K : Type) where
  | ex (step : Nat) (w : K)
  | inh (step : Nat) (w : K)
  | cur (step : Nat) (w : K)

/-- Modelled from the spec: the write path of the InputAccumulator
(spec §4.2) — the value is merged additively into the slot of the
target step. -/
def apply_write (A : InputAccumulator K) : Write K → InputAccumulator K
  | .ex st w => { A with ex := fun s => if s = st then A.ex s + w else A.ex s }
  | .inh st w => { A with inh := fun s => if s = st then A.inh s + w else A.inh s }
  | .cur st w => { A with cur := fun s => if s = st then A.cur s + w else A.cur s }

/-- A sequence of writes applied in order. -/
def apply_writes (A : InputAccumulator K) : List (Write K) → InputAccumulator K
  | [] => A
  | w :: ws => apply_writes (apply_write A w) ws

/-- Modelled from the spec: the read path of the InputAccumulator
(spec §4.2) — `read_and_clear step` returns the accumulated
`(ex_sum, in_sum, current_value)` for that step and resets those slots
to zero. -/
def read_and_clear (A : InputAccumulator K) (step : Nat) :
    (K × K × K) × InputAccumulator K :=
  ((A.ex step, A.inh step, A.cur step),
   { ex := fun s => if s = step then 0 else A.ex s
     inh := fun s => if s = step then 0 else A.inh s
     cur := fun s => if s = step then 0 else A.cur s })

/-- The excitatory-weight contribution of one write to a given step. -/
def contrib_ex (s : Nat) : Write K → K
  | .ex st w => if s = st then w else 0
  | _ => 0

/-- The inhibitory-weight contribution of one write to a given step. -/
def contrib_in (s : Nat) : Write K → K
  | .inh st w => if s = st then w else 0
  | _ => 0

/-- The current contribution of one write to a given step. -/
def contrib_cur (s : Nat) : Write K → K
  | .cur st w => if s = st then w else 0
  | _ => 0

/-- Total excitatory weight a write sequence targets at a step. -/
def ex_total (ws : List (Write K)) (s : Nat) : K :=
  (ws.map (contrib_ex s)).sum

/-- Total inhibitory weight a write sequence targets at a step. -/
def in_total (ws : List (Write K)) (s : Nat) : K :=
  (ws.map (contrib_in s)).sum

/-- Total current a write sequence targets at a step. -/
def cur_total (ws : List (Write K)) (s : Nat) : K :=
  (ws.map (contrib_cur s)).sum

/-- Embedding of `gif_psc_exp::get_V_m_`
(src/models/gif_psc_exp.h line 293): a const member call returning the
membrane potential; the pair carries the (unchanged) object. -/
def get_V_m_ (n : Neuron K) : K × Neuron K := (n.S.y3, n)

/-- Embedding of `gif_psc_exp::get_E_sfa_`
(src/models/gif_psc_exp.h line 296): the adaptive-threshold total. -/
def get_E_sfa_ (n : Neuron K) : K × Neuron K := (n.S.q, n)

/-- Embedding of `gif_psc_exp::get_input_currents_ex_`
(src/models/gif_psc_exp.h lines 298-302). -/
def get_input_currents_ex_ (n : Neuron K) : K × Neuron K := (n.S.i_syn_ex, n)

/-- Embedding of `gif_psc_exp::get_input_currents_in_`
(src/models/gif_psc_exp.h lines 304-308). -/
def get_input_currents_in_ (n : Neuron K) : K × Neuron K := (n.S.i_syn_in, n)

/-- Modelled from the spec: `UniversalDataLogger::connect_logging_device`
(external to the inspected sources) — registers the logging request with
the logger held in `Buffers_` and returns the connection port. -/
def connect_logging_device (B : Buffers K) : Int × Buffers K :=
  (0, { B with logger_conns := B.logger_conns + 1 })

/-- Embedding of `gif_psc_exp::handles_test_event(SpikeEvent&, rport)`
(src/models/gif_psc_exp.h lines 339-345): any receptor type other than 0
throws `UnknownReceptorType`, otherwise port 0 is returned. -/
def handles_spike_event (n : Neuron K) (receptor_type : Int) :
    Except NestError (Int × Neuron K) :=
  if receptor_type ≠ 0 then .error (.unknownReceptorType receptor_type)
  else .ok (0, n)

/-- Embedding of `gif_psc_exp::handles_test_event(CurrentEvent&, rport)`
(src/models/gif_psc_exp.h lines 347-353). -/
def handles_current_event (n : Neuron K) (receptor_type : Int) :
    Except NestError (Int × Neuron K) :=
  if receptor_type ≠ 0 then .error (.unknownReceptorType receptor_type)
  else .ok (0, n)

/-- Embedding of
`gif_psc_exp::handles_test_event(DataLoggingRequest&, rport)`
(src/models/gif_psc_exp.h lines 355-362): receptor type 0 connects the
logging device through `B_.logger_`. -/
def handles_logging_request (n : Neuron K) (receptor_type : Int) :
    Except NestError (Int × Neuron K) :=
  if receptor_type ≠ 0 then .error (.unknownReceptorType receptor_type)
  else
    let pb := connect_logging_device n.B
    .ok (pb.1, { n with B := pb.2 })

/-- The worked-example parameter set of spec §8: `C_m = 250`,
`g_L = 16.7`, `E_L = 0`, `V_reset = 0`, `delta_u = 2`, `lambda0 = 0.01`,
`t_ref = 4`, `tau_syn_ex = tau_syn_in = 2`, no adaptation channels. -/
noncomputable def Pwork : Parameters ℝ :=
  { g_L := 16.7, E_L := 0, V_reset := 0, delta_u := 2, v_t_star := 1
    lambda0 := 0.01, t_ref := 4, c_m := 250, tau_stc := [], q_stc := []
    tau_sfa := [], q_sfa := [], tau_ex := 2, tau_in := 2, I_e := 0 }

/-- The worked-example parameter set with the stochastic intensity
switched off (`lambda0 = 0`), for the sub-threshold decay property. -/
noncomputable def Pzero : Parameters ℝ :=
  { Pwork with lambda0 := 0 }

/-- Propagators for the worked example at `h = 0.1`. -/
noncomputable def Vwork : Variables ℝ := make_variables Real.exp Pwork 0.1

/-- Propagators for the `lambda0 = 0` parameter set at `h = 0.1`. -/
noncomputable def Vzero : Variables ℝ := make_variables Real.exp Pzero 0.1

/-- A concrete integrating-state neuron state (`r_ref = 0`, `V = 1`). -/
noncomputable def Sint : State ℝ :=
  { y0 := 0, y3 := 1, q := 0, stc := 0, q_sfa_elems := [], q_stc_elems := []
    i_syn_ex := 0, i_syn_in := 0, r_ref := 0, init_flag := true
    add_stc_sfa := false }

/-- A concrete rational parameter set with one sfa and one stc channel. -/
def Pq : Parameters ℚ :=
  { g_L := 1, E_L := 0, V_reset := 0, delta_u := 1, v_t_star := 1
    lambda0 := 0, t_ref := 2, c_m := 1, tau_stc := [1], q_stc := [2]
    tau_sfa := [1], q_sfa := [3], tau_ex := 1, tau_in := 1, I_e := 0 }

/-- Propagators for `Pq` at `h = 1`, with the identity standing in for
the exponential (the generic theorems hold for any `eexp`). -/
def Vq : Variables ℚ := make_variables (fun x => x) Pq 1

/-- A concrete refractory state (`r_ref = 2`) over `ℚ`. -/
def Sq2 : State ℚ :=
  { y0 := 0, y3 := 5, q := 1, stc := 1, q_sfa_elems := [1], q_stc_elems := [1]
    i_syn_ex := 2, i_syn_in := 3, r_ref := 2, init_flag := true
    add_stc_sfa := false }

/-- A concrete neuron over `ℚ` built from `Pq`. -/
def Nq : Neuron ℚ :=
  { P := Pq
    S := init_state Pq
    V := Vq
    B := { acc := InputAccumulator.empty, logger_conns := 0 } }

/-- A dictionary carrying the spec §8 invalid candidate: three stc time
constants but only two jump values. -/
def badDict : Dict ℚ :=
  { tau_stc := some [1, 1, 1], q_stc := some [2, 2] }

/-- A base-class `set_status` stub that always succeeds. -/
def archOk : Dict ℚ → Except NestError Unit := fun _ => .ok ()

/-- A `Parameters_` value whose stc time-constant list (three entries)
and stc jump list (two entries) disagree in length — representable
because the source declares them as two separate vectors. -/
def mismatchParams : Parameters ℚ :=
  { Pq with tau_stc := [1, 1, 1], q_stc := [2, 2] }

end GifPsc

namespace GifPsc

variable {K : Type} [LinearOrderedField K] [FloorRing K]

/-- Claim C2: in the INTEGRATING state (`r_ref = 0`) the spike decision
of one update step is exactly: intensity
`λ = lambda0·exp((V−V_T)/delta_u)` at the propagated potential with
`V_T = v_t_star + q`, firing probability `p = 1 − exp(−λ·h)` clamped to
`[0,1]`, and the neuron fires iff the caller-supplied uniform draw
satisfies `u < p`. -/
theorem C2_spike_decision (P : Parameters ℝ) (Vb : Variables ℝ)
    (S : State ℝ) (exs ins curs u : ℝ) (hr : S.r_ref = 0) :
    ((update_step Real.exp P Vb S exs ins curs u).2 = true ↔
      u < min 1 (max 0 (1 - Real.exp (-(P.lambda0 *
        Real.exp ((propagate_V Vb S - (P.v_t_star + S.q)) / P.delta_u) *
          Vb.h))))) := by
  unfold update_step
  rw [if_neg (by rw [hr]; exact lt_irrefl 0)]
  unfold firing_prob
  split
  · next hlt => simpa using hlt
  · next hlt => simpa using hlt

/-- Witness for C2 at the worked-example parameters with `u = 1/2`. -/
theorem C2_spike_decision_witness :
    Sint.r_ref = 0 ∧
    ((update_step Real.exp Pwork Vwork Sint 0 0 0 (1 / 2)).2 = true ↔
      (1 / 2 : ℝ) < min 1 (max 0 (1 - Real.exp (-(Pwork.lambda0 *
        Real.exp ((propagate_V Vwork Sint - (Pwork.v_t_star + Sint.q)) /
          Pwork.delta_u) * Vwork.h))))) :=
  ⟨rfl, C2_spike_decision Pwork Vwork Sint 0 0 0 (1 / 2) rfl⟩

/-- Claim C3: while `r_ref > 0` a step decrements the counter, holds the
membrane at `V_reset`, fires no spike, and still advances the
adaptation-channel and synaptic-current decays; a spike arms the counter
with `RefractoryCounts`, and starting from `r_ref = RefractoryCounts` no
spike is evaluated for exactly `RefractoryCounts` steps (the counter
reaching 0 exactly then). -/
theorem C3_refractory_lock (eexp : K → K) (P : Parameters K)
    (Vb : Variables K) :
    (∀ (S : State K) (exs ins curs u : K), 0 < S.r_ref →
      (update_step eexp P Vb S exs ins curs u).2 = false ∧
      (update_step eexp P Vb S exs ins curs u).1.r_ref = S.r_ref - 1 ∧
      (update_step eexp P Vb S exs ins curs u).1.y3 = P.V_reset ∧
      (update_step eexp P Vb S exs ins curs u).1.q_sfa_elems
        = decay_elems S.q_sfa_elems Vb.Q33 ∧
      (update_step eexp P Vb S exs ins curs u).1.q_stc_elems
        = decay_elems S.q_stc_elems Vb.Q44 ∧
      (update_step eexp P Vb S exs ins curs u).1.i_syn_ex
        = S.i_syn_ex * Vb.P11ex + exs ∧
      (update_step eexp P Vb S exs ins curs u).1.i_syn_in
        = S.i_syn_in * Vb.P11in + ins) ∧
    (∀ (S : State K) (exs ins curs u : K), ¬ 0 < S.r_ref →
      (update_step eexp P Vb S exs ins curs u).2 = true →
      (update_step eexp P Vb S exs ins curs u).1.r_ref
          = Vb.RefractoryCounts ∧
      (update_step eexp P Vb S exs ins curs u).1.y3 = P.V_reset) ∧
    (∀ (S : State K) (inp : Nat → StepInput K),
      S.r_ref = Vb.RefractoryCounts →
      (∀ k : Nat, (k : Int) ≤ Vb.RefractoryCounts →
        (run_update eexp P Vb inp S k).r_ref
          = Vb.RefractoryCounts - k) ∧
      (∀ k : Nat, (k : Int) < Vb.RefractoryCounts →
        (update_step eexp P Vb (run_update eexp P Vb inp S k)
          (inp k).ex_sum (inp k).in_sum (inp k).cur (inp k).u).2
            = false)) := by
  have hrefr : ∀ (S : State K) (exs ins curs u : K), 0 < S.r_ref →
      update_step eexp P Vb S exs ins curs u
        = (refractory_step P Vb S exs ins curs, false) := by
    intro S exs ins curs u hS
    unfold update_step
    rw [if_pos hS]
  refine ⟨?_, ?_, ?_⟩
  · intro S exs ins curs u hS
    rw [hrefr S exs ins curs u hS]
    exact ⟨rfl, rfl, rfl, rfl, rfl, rfl, rfl⟩
  · intro S exs ins curs u hS hfire
    unfold update_step at hfire ⊢
    rw [if_neg hS] at hfire ⊢
    split at hfire
    · next hlt =>
      rw [if_pos hlt]
      exact ⟨rfl, rfl⟩
    · cases hfire
  · intro S inp hS
    have spine : ∀ k : Nat, (k : Int) ≤ Vb.RefractoryCounts →
        (run_update eexp P Vb inp S k).r_ref
          = Vb.RefractoryCounts - k := by
      intro k
      induction k with
      | zero =>
        intro _
        show S.r_ref = Vb.RefractoryCounts - (0 : Nat)
        rw [hS]
        simp
      | succ m ih =>
        intro hk
        have hm : (m : Int) ≤ Vb.RefractoryCounts := by
          push_cast at hk ⊢
          omega
        have hrm := ih hm
        have hpos : 0 < (run_update eexp P Vb inp S m).r_ref := by
          rw [hrm]
          push_cast at hk ⊢
          omega
        show (update_step eexp P Vb (run_update eexp P Vb inp S m)
          (inp m).ex_sum (inp m).in_sum (inp m).cur (inp m).u).1.r_ref
            = Vb.RefractoryCounts - (Nat.succ m : Nat)
        rw [hrefr _ _ _ _ _ hpos]
        show (run_update eexp P Vb inp S m).r_ref - 1
          = Vb.RefractoryCounts - (Nat.succ m : Nat)
        rw [hrm]
        push_cast
        omega
    refine ⟨spine, ?_⟩
    intro k hk
    have hpos : 0 < (run_update eexp P Vb inp S k).r_ref := by
      rw [spine k (le_of_lt hk)]
      omega
    rw [hrefr _ _ _ _ _ hpos]

/-- Witness for C3 at a concrete rational refractory state. -/
theorem C3_refractory_lock_witness :
    (0 : Int) < Sq2.r_ref ∧
    (update_step (fun x => x) Pq Vq Sq2 5 7 9 0).2 = false ∧
    (update_step (fun x => x) Pq Vq Sq2 5 7 9 0).1.r_ref = Sq2.r_ref - 1 ∧
    (update_step (fun x => x) Pq Vq Sq2 5 7 9 0).1.y3 = Pq.V_reset := by
  have h := (C3_refractory_lock (fun x => x) Pq Vq).1 Sq2 5 7 9 0
    (by decide)
  exact ⟨by decide, h.1, h.2.1, h.2.2.1⟩

end GifPsc

namespace GifPsc

variable {K : Type} [LinearOrderedField K] [FloorRing K]

/-- Claim C1: a configuration attempt that fails validation (of the
candidate parameters, the candidate state, or the base class) leaves the
live `Parameters_` and `State_` exactly as they were and reports the
configuration error to the caller; only on full success are parameters
and state replaced together (and nothing else of the neuron changes). -/
theorem C1_set_status_atomic (arch : Dict K → Except NestError Unit)
    (n : Neuron K) (d : Dict K) :
    (∀ e n', set_status arch n d = .err e n' → n' = n) ∧
    (∀ n', set_status arch n d = .ok n' →
      ∃ ptmp stmp, Parameters.set n.P d = .ok ptmp ∧
        State.set n.S d ptmp = .ok stmp ∧ arch d = .ok () ∧
        n'.P = ptmp ∧ n'.S = stmp ∧ n'.V = n.V ∧ n'.B = n.B) := by
  constructor
  · intro e n' h
    unfold set_status at h
    split at h
    · cases h; rfl
    · split at h
      · cases h; rfl
      · split at h
        · cases h; rfl
        · cases h
  · intro n' h
    unfold set_status at h
    split at h
    · cases h
    · next ptmp hp =>
      split at h
      · cases h
      · next stmp hs =>
        split at h
        · cases h
        · next u ha =>
          cases h
          exact ⟨ptmp, stmp, hp, hs, by rw [ha], rfl, rfl, rfl, rfl⟩

/-- Witness for C1: the spec §8 invalid candidate (three stc time
constants, two jump values) is rejected and the live neuron is exactly
what it was. -/
theorem C1_set_status_atomic_witness :
    set_status archOk Nq badDict = .err .badProperty Nq ∧
    ∀ n', set_status archOk Nq badDict = .err .badProperty n' → n' = Nq := by
  have h : set_status archOk Nq badDict = .err .badProperty Nq := by
    have hp : Parameters.set Nq.P badDict = .error .badProperty := by rfl
    unfold set_status
    rw [hp]
  exact ⟨h, fun n' h' =>
    (C1_set_status_atomic archOk Nq badDict).1 .badProperty n' h'⟩

/-- Claim C4: with calibrated coefficients, `P33 = exp(−h·g_L/c_m)` and
a non-refractory, non-firing step propagates the membrane as
`V' = P33·V + P31·stc_total + P30·I_ext + P21ex·i_syn_ex +
P21in·i_syn_in`; consequently with `lambda0 = 0` and no inputs the
membrane decays exactly as `V(n·h) = V(0)·exp(−g_L·(n·h)/c_m)`. -/
theorem C4_membrane_propagation (P : Parameters ℝ) (h : ℝ)
    (Vb : Variables ℝ) (hcal : calibrate Real.exp P h = .ok Vb) :
    Vb.P33 = Real.exp (-(h * P.g_L) / P.c_m) ∧
    (∀ (S : State ℝ) (exs ins curs u : ℝ), ¬ 0 < S.r_ref →
      ¬ u < firing_prob Real.exp P Vb.h (propagate_V Vb S)
        (P.v_t_star + S.q) →
      (update_step Real.exp P Vb S exs ins curs u).1.y3 =
        Vb.P33 * S.y3 + Vb.P31 * S.stc + Vb.P30 * S.y0 +
          Vb.P21ex * S.i_syn_ex + Vb.P21in * S.i_syn_in) ∧
    (∀ (S0 : State ℝ) (inp : Nat → StepInput ℝ),
      P.lambda0 = 0 → S0.r_ref = 0 → S0.q_stc_elems = [] → S0.stc = 0 →
      S0.i_syn_ex = 0 → S0.i_syn_in = 0 → S0.y0 = 0 →
      (∀ m, (inp m).ex_sum = 0) → (∀ m, (inp m).in_sum = 0) →
      (∀ m, (inp m).cur = 0) → (∀ m, 0 ≤ (inp m).u) →
      ∀ m : Nat, (run_update Real.exp P Vb inp S0 m).y3 =
        S0.y3 * Real.exp (-(P.g_L * (m * h)) / P.c_m)) := by
  have hVb : Vb = make_variables Real.exp P h := by
    unfold calibrate at hcal
    split at hcal
    · injection hcal with hi
      exact hi.symm
    · cases hcal
  subst hVb
  refine ⟨by simp [make_variables], ?_, ?_⟩
  · intro S exs ins curs u h1 h2
    unfold update_step
    rw [if_neg h1, if_neg h2]
    simp [nofire_step, propagate_V]
  · intro S0 inp hl0 hr0 hse hst hie hii hy0 hex hin hcur hu
    have hp0 : ∀ hh V VT : ℝ, firing_prob Real.exp P hh V VT = 0 := by
      intro hh V VT
      simp [firing_prob, hl0]
    have key : ∀ m : Nat,
        (run_update Real.exp P (make_variables Real.exp P h) inp S0 m).y3
            = S0.y3 * (make_variables Real.exp P h).P33 ^ m ∧
        (run_update Real.exp P (make_variables Real.exp P h) inp S0
          m).r_ref = 0 ∧
        (run_update Real.exp P (make_variables Real.exp P h) inp S0
          m).q_stc_elems = [] ∧
        (run_update Real.exp P (make_variables Real.exp P h) inp S0
          m).stc = 0 ∧
        (run_update Real.exp P (make_variables Real.exp P h) inp S0
          m).i_syn_ex = 0 ∧
        (run_update Real.exp P (make_variables Real.exp P h) inp S0
          m).i_syn_in = 0 ∧
        (run_update Real.exp P (make_variables Real.exp P h) inp S0
          m).y0 = 0 := by
      intro m
      induction m with
      | zero => exact ⟨by simp [run_update], hr0, hse, hst, hie, hii, hy0⟩
      | succ k ih =>
        obtain ⟨iy3, irr, iqe, istc, iiex, iiin, iy0⟩ := ih
        have hstep : update_step Real.exp P (make_variables Real.exp P h)
            (run_update Real.exp P (make_variables Real.exp P h) inp S0 k)
            (inp k).ex_sum (inp k).in_sum (inp k).cur (inp k).u
          = (nofire_step P (make_variables Real.exp P h)
              (run_update Real.exp P (make_variables Real.exp P h) inp S0 k)
              (inp k).ex_sum (inp k).in_sum (inp k).cur, false) := by
          unfold update_step
          rw [if_neg (by rw [irr]; exact lt_irrefl 0),
            if_neg (by rw [hp0]; exact not_lt.mpr (hu k))]
        have hrun : run_update Real.exp P (make_variables Real.exp P h)
            inp S0 (k + 1)
          = (update_step Real.exp P (make_variables Real.exp P h)
              (run_update Real.exp P (make_variables Real.exp P h) inp S0 k)
              (inp k).ex_sum (inp k).in_sum (inp k).cur (inp k).u).1 := rfl
        rw [hrun, hstep]
        refine ⟨?_, ?_, ?_, ?_, ?_, ?_, ?_⟩
        · show propagate_V (make_variables Real.exp P h)
            (run_update Real.exp P (make_variables Real.exp P h) inp S0 k)
              = S0.y3 * (make_variables Real.exp P h).P33 ^ (k + 1)
          unfold propagate_V
          rw [iy3, istc, iiex, iiin, iy0]
          ring
        · exact irr
        · show decay_elems (run_update Real.exp P
            (make_variables Real.exp P h) inp S0 k).q_stc_elems
              (make_variables Real.exp P h).Q44 = []
          rw [iqe]
          rfl
        · show (decay_elems (run_update Real.exp P
            (make_variables Real.exp P h) inp S0 k).q_stc_elems
              (make_variables Real.exp P h).Q44).sum = 0
          rw [iqe]
          rfl
        · show (run_update Real.exp P (make_variables Real.exp P h) inp S0
            k).i_syn_ex * (make_variables Real.exp P h).P11ex +
              (inp k).ex_sum = 0
          rw [iiex, hex k]
          ring
        · show (run_update Real.exp P (make_variables Real.exp P h) inp S0
            k).i_syn_in * (make_variables Real.exp P h).P11in +
              (inp k).in_sum = 0
          rw [iiin, hin k]
          ring
        · exact hcur k
    intro m
    rw [(key m).1]
    have hP33 : (make_variables Real.exp P h).P33
        = Real.exp (-(h * P.g_L) / P.c_m) := by
      simp [make_variables]
    rw [hP33, ← Real.exp_nat_mul]
    ring_nf

/-- Witness for C4: two zero-input steps from `V = 1` at the
`lambda0 = 0` worked-example parameters. -/
theorem C4_membrane_propagation_witness :
    calibrate Real.exp Pzero 0.1 = .ok Vzero ∧
    (run_update Real.exp Pzero Vzero (fun _ => ⟨0, 0, 0, 1 / 2⟩) Sint
      2).y3 = Sint.y3 *
        Real.exp (-(Pzero.g_L * ((2 : Nat) * (0.1 : ℝ))) / Pzero.c_m) := by
  have hcal : calibrate Real.exp Pzero 0.1 = .ok Vzero := by
    unfold calibrate Vzero
    rw [if_pos]
    unfold calib_ok Pzero Pwork
    norm_num
  refine ⟨hcal, ?_⟩
  exact (C4_membrane_propagation Pzero 0.1 Vzero hcal).2.2 Sint
    (fun _ => ⟨0, 0, 0, 1 / 2⟩) rfl rfl rfl rfl rfl rfl rfl
    (fun _ => rfl) (fun _ => rfl) (fun _ => rfl) (fun _ => by norm_num) 2

/-- Claim C5: with calibrated coefficients,
`P11ex = exp(−h/tau_syn_ex)` and `P11in = exp(−h/tau_syn_in)`, and every
step updates the synaptic currents decay-then-inject:
`i_syn ← i_syn·P11 + sum`; with `tau_syn_ex = 2`, `h = 0.1` and one
excitatory spike of weight 100 delivered at step 0, `i_syn_ex` equals
100 at step 1 and thereafter decays by the factor `exp(−0.1/2)` each
step until the next event. -/
theorem C5_synaptic_current (P : Parameters ℝ) (h : ℝ) (Vb : Variables ℝ)
    (hcal : calibrate Real.exp P h = .ok Vb) :
    Vb.P11ex = Real.exp (-h / P.tau_ex) ∧
    Vb.P11in = Real.exp (-h / P.tau_in) ∧
    (∀ (S : State ℝ) (exs ins curs u : ℝ),
      (update_step Real.exp P Vb S exs ins curs u).1.i_syn_ex
        = S.i_syn_ex * Vb.P11ex + exs ∧
      (update_step Real.exp P Vb S exs ins curs u).1.i_syn_in
        = S.i_syn_in * Vb.P11in + ins) ∧
    (P.tau_ex = 2 → h = 0.1 →
      ∀ (S0 : State ℝ) (inp : Nat → StepInput ℝ),
        S0.i_syn_ex = 0 → (inp 0).ex_sum = 100 →
        (∀ m, 0 < m → (inp m).ex_sum = 0) →
        (run_update Real.exp P Vb inp S0 1).i_syn_ex = 100 ∧
        (∀ m, 0 < m →
          (run_update Real.exp P Vb inp S0 (m + 1)).i_syn_ex
            = (run_update Real.exp P Vb inp S0 m).i_syn_ex *
                Real.exp (-0.1 / 2))) := by
  have hVb : Vb = make_variables Real.exp P h := by
    unfold calibrate at hcal
    split at hcal
    · injection hcal with hi
      exact hi.symm
    · cases hcal
  subst hVb
  have hsyn : ∀ (S : State ℝ) (exs ins curs u : ℝ),
      (update_step Real.exp P (make_variables Real.exp P h) S exs ins curs
        u).1.i_syn_ex
          = S.i_syn_ex * (make_variables Real.exp P h).P11ex + exs ∧
      (update_step Real.exp P (make_variables Real.exp P h) S exs ins curs
        u).1.i_syn_in
          = S.i_syn_in * (make_variables Real.exp P h).P11in + ins := by
    intro S exs ins curs u
    unfold update_step
    split_ifs <;> exact ⟨rfl, rfl⟩
  have hP11 : (make_variables Real.exp P h).P11ex
      = Real.exp (-h / P.tau_ex) := by
    simp [make_variables]
  refine ⟨hP11, by simp [make_variables], hsyn, ?_⟩
  intro htau hh S0 inp hS0 h0 hz
  subst hh
  constructor
  · have h1 : run_update Real.exp P
        (make_variables Real.exp P (0.1 : ℝ)) inp S0 1
      = (update_step Real.exp P (make_variables Real.exp P (0.1 : ℝ)) S0
          (inp 0).ex_sum (inp 0).in_sum (inp 0).cur (inp 0).u).1 := rfl
    rw [h1, (hsyn S0 _ _ _ _).1, hS0, h0]
    ring
  · intro m hm
    have h2 : run_update Real.exp P
        (make_variables Real.exp P (0.1 : ℝ)) inp S0 (m + 1)
      = (update_step Real.exp P (make_variables Real.exp P (0.1 : ℝ))
          (run_update Real.exp P (make_variables Real.exp P (0.1 : ℝ))
            inp S0 m)
          (inp m).ex_sum (inp m).in_sum (inp m).cur (inp m).u).1 := rfl
    rw [h2, (hsyn _ _ _ _ _).1, hz m hm, hP11, htau]
    ring

/-- Witness for C5: the spec §8 worked example — weight-100 excitatory
spike at step 0, `i_syn_ex = 100` at step 1, decay factor afterwards. -/
theorem C5_synaptic_current_witness :
    calibrate Real.exp Pwork 0.1 = .ok Vwork ∧
    (run_update Real.exp Pwork Vwork
      (fun m => if m = 0 then ⟨100, 0, 0, 1⟩ else ⟨0, 0, 0, 1⟩) Sint
        1).i_syn_ex = 100 ∧
    (run_update Real.exp Pwork Vwork
      (fun m => if m = 0 then ⟨100, 0, 0, 1⟩ else ⟨0, 0, 0, 1⟩) Sint
        2).i_syn_ex
      = (run_update Real.exp Pwork Vwork
          (fun m => if m = 0 then ⟨100, 0, 0, 1⟩ else ⟨0, 0, 0, 1⟩) Sint
            1).i_syn_ex * Real.exp (-0.1 / 2) := by
  have hcal : calibrate Real.exp Pwork 0.1 = .ok Vwork := by
    unfold calibrate Vwork
    rw [if_pos]
    unfold calib_ok Pwork
    norm_num
  have hmain := (C5_synaptic_current Pwork 0.1 Vwork hcal).2.2.2
    (by norm_num [Pwork]) rfl Sint
    (fun m => if m = 0 then ⟨100, 0, 0, 1⟩ else ⟨0, 0, 0, 1⟩)
    rfl rfl (fun m hm => by simp [Nat.pos_iff_ne_zero.mp hm])
  exact ⟨hcal, hmain.1, hmain.2 1 one_pos⟩

/-- One write changes the excitatory slot by exactly its contribution. -/
theorem apply_write_ex (A : InputAccumulator K) (w : Write K) (s : Nat) :
    (apply_write A w).ex s = A.ex s + contrib_ex s w := by
  cases w with
  | ex st v =>
    show (if s = st then A.ex s + v else A.ex s)
      = A.ex s + if s = st then v else 0
    split <;> simp
  | inh st v =>
    show A.ex s = A.ex s + 0
    rw [add_zero]
  | cur st v =>
    show A.ex s = A.ex s + 0
    rw [add_zero]

/-- One write changes the inhibitory slot by exactly its contribution. -/
theorem apply_write_inh (A : InputAccumulator K) (w : Write K) (s : Nat) :
    (apply_write A w).inh s = A.inh s + contrib_in s w := by
  cases w with
  | ex st v =>
    show A.inh s = A.inh s + 0
    rw [add_zero]
  | inh st v =>
    show (if s = st then A.inh s + v else A.inh s)
      = A.inh s + if s = st then v else 0
    split <;> simp
  | cur st v =>
    show A.inh s = A.inh s + 0
    rw [add_zero]

/-- One write changes the current slot by exactly its contribution. -/
theorem apply_write_cur (A : InputAccumulator K) (w : Write K) (s : Nat) :
    (apply_write A w).cur s = A.cur s + contrib_cur s w := by
  cases w with
  | ex st v =>
    show A.cur s = A.cur s + 0
    rw [add_zero]
  | inh st v =>
    show A.cur s = A.cur s + 0
    rw [add_zero]
  | cur st v =>
    show (if s = st then A.cur s + v else A.cur s)
      = A.cur s + if s = st then v else 0
    split <;> simp

/-- Applying a write sequence adds the total excitatory contribution. -/
theorem apply_writes_ex (ws : List (Write K)) (A : InputAccumulator K)
    (s : Nat) : (apply_writes A ws).ex s = A.ex s + ex_total ws s := by
  induction ws generalizing A with
  | nil => simp [apply_writes, ex_total]
  | cons w ws ih =>
    show (apply_writes (apply_write A w) ws).ex s = _
    rw [ih, apply_write_ex]
    simp only [ex_total, List.map_cons, List.sum_cons]
    ring

/-- Applying a write sequence adds the total inhibitory contribution. -/
theorem apply_writes_inh (ws : List (Write K)) (A : InputAccumulator K)
    (s : Nat) : (apply_writes A ws).inh s = A.inh s + in_total ws s := by
  induction ws generalizing A with
  | nil => simp [apply_writes, in_total]
  | cons w ws ih =>
    show (apply_writes (apply_write A w) ws).inh s = _
    rw [ih, apply_write_inh]
    simp only [in_total, List.map_cons, List.sum_cons]
    ring

/-- Applying a write sequence adds the total current contribution. -/
theorem apply_writes_cur (ws : List (Write K)) (A : InputAccumulator K)
    (s : Nat) : (apply_writes A ws).cur s = A.cur s + cur_total ws s := by
  induction ws generalizing A with
  | nil => simp [apply_writes, cur_total]
  | cons w ws ih =>
    show (apply_writes (apply_write A w) ws).cur s = _
    rw [ih, apply_write_cur]
    simp only [cur_total, List.map_cons, List.sum_cons]
    ring

/-- Claim C6: for every step and every sequence of prior writes,
`read_and_clear step` returns the additively merged excitatory,
inhibitory and current totals for that step and zeroes the slots: a
second read returns zeros, and the slot is reusable — writes applied
after the clear accumulate afresh. -/
theorem C6_read_and_clear_total (ws ws2 : List (Write K)) (s : Nat) :
    (read_and_clear (apply_writes InputAccumulator.empty ws) s).1
      = (ex_total ws s, in_total ws s, cur_total ws s) ∧
    (read_and_clear
      (read_and_clear (apply_writes InputAccumulator.empty ws) s).2 s).1
      = (0, 0, 0) ∧
    (read_and_clear (apply_writes
      (read_and_clear (apply_writes InputAccumulator.empty ws) s).2 ws2)
        s).1
      = (ex_total ws2 s, in_total ws2 s, cur_total ws2 s) := by
  refine ⟨?_, ?_, ?_⟩
  · show ((apply_writes InputAccumulator.empty ws).ex s,
      (apply_writes InputAccumulator.empty ws).inh s,
      (apply_writes InputAccumulator.empty ws).cur s) = _
    rw [apply_writes_ex, apply_writes_inh, apply_writes_cur]
    show ((0 : K) + _, (0 : K) + _, (0 : K) + _) = _
    rw [zero_add, zero_add, zero_add]
  · simp [read_and_clear]
  · show ((apply_writes (read_and_clear
        (apply_writes InputAccumulator.empty ws) s).2 ws2).ex s,
      (apply_writes (read_and_clear
        (apply_writes InputAccumulator.empty ws) s).2 ws2).inh s,
      (apply_writes (read_and_clear
        (apply_writes InputAccumulator.empty ws) s).2 ws2).cur s) = _
    rw [apply_writes_ex, apply_writes_inh, apply_writes_cur]
    show ((if s = s then (0 : K) else _) + _,
      (if s = s then (0 : K) else _) + _,
      (if s = s then (0 : K) else _) + _) = _
    rw [if_pos rfl, if_pos rfl, if_pos rfl, zero_add, zero_add, zero_add]

/-- Claim C7: the channel invariant — element sequences as long as the
parameter lists and the totals `q`, `stc_total` equal to the sums of
their elements — holds after initialization, is preserved by every
update step under calibrated coefficients and length-consistent
parameters, and holds after every successful configuration commit. -/
theorem C7_channel_invariant (P : Parameters K) :
    state_inv P (init_state P) ∧
    (∀ (eexp : K → K) (h : K) (Vb : Variables K) (S : State K)
        (exs ins curs u : K),
      calibrate eexp P h = .ok Vb →
      P.q_sfa.length = P.tau_sfa.length →
      P.q_stc.length = P.tau_stc.length →
      state_inv P S →
      state_inv P (update_step eexp P Vb S exs ins curs u).1) ∧
    (∀ (arch : Dict K → Except NestError Unit) (n : Neuron K)
        (d : Dict K) (n' : Neuron K),
      set_status arch n d = .ok n' → state_inv n'.P n'.S) := by
  refine ⟨?_, ?_, ?_⟩
  · refine ⟨?_, ?_, ?_, ?_⟩ <;> simp [state_inv, init_state]
  · intro eexp h Vb S exs ins curs u hcal hqs hqt hinv
    obtain ⟨h1, h2, h3, h4⟩ := hinv
    have hVb : Vb = make_variables eexp P h := by
      unfold calibrate at hcal
      split at hcal
      · injection hcal with hi
        exact hi.symm
      · cases hcal
    subst hVb
    have hQ33 : (make_variables eexp P h).Q33.length = P.tau_sfa.length := by
      simp [make_variables]
    have hQ44 : (make_variables eexp P h).Q44.length = P.tau_stc.length := by
      simp [make_variables]
    unfold update_step
    split_ifs
    · exact ⟨by simp [refractory_step, decay_elems, List.length_zipWith,
          h1, hQ33],
        by simp [refractory_step, decay_elems, List.length_zipWith,
          h2, hQ44],
        rfl, rfl⟩
    · exact ⟨by simp [fire_step, decay_jump_elems, List.length_zipWith,
          List.length_zip, h1, hQ33, hqs],
        by simp [fire_step, decay_jump_elems, List.length_zipWith,
          List.length_zip, h2, hQ44, hqt],
        rfl, rfl⟩
    · exact ⟨by simp [nofire_step, decay_elems, List.length_zipWith,
          h1, hQ33],
        by simp [nofire_step, decay_elems, List.length_zipWith,
          h2, hQ44],
        rfl, rfl⟩
  · intro arch n d n' hok
    unfold set_status at hok
    split at hok
    · cases hok
    · next ptmp hp =>
      split at hok
      · cases hok
      · next stmp hs =>
        split at hok
        · cases hok
        · cases hok
          unfold State.set at hs
          injection hs with hi
          rw [← hi]
          refine ⟨?_, ?_, rfl, rfl⟩
          · show (if n.S.q_sfa_elems.length = ptmp.tau_sfa.length
              then n.S.q_sfa_elems
              else List.replicate ptmp.tau_sfa.length 0).length
                = ptmp.tau_sfa.length
            split
            · next he => exact he
            · simp
          · show (if n.S.q_stc_elems.length = ptmp.tau_stc.length
              then n.S.q_stc_elems
              else List.replicate ptmp.tau_stc.length 0).length
                = ptmp.tau_stc.length
            split
            · next he => exact he
            · simp

/-- Witness for C7: the invariant is preserved by a concrete rational
step from the refractory state `Sq2`. -/
theorem C7_channel_invariant_witness :
    calibrate (fun x => x) Pq 1 = .ok Vq ∧
    state_inv Pq (update_step (fun x => x) Pq Vq Sq2 1 2 3 0).1 := by
  have hcal : calibrate (fun x => x) Pq 1 = .ok Vq := by rfl
  exact ⟨hcal, (C7_channel_invariant Pq).2.1 (fun x => x) 1 Vq Sq2
    1 2 3 0 hcal rfl rfl ⟨rfl, rfl, by simp [Sq2], by simp [Sq2]⟩⟩

/-- Counterexample to claim C8 as stated: a `Parameters_` value whose
stc time-constant and jump vectors have different lengths *is*
representable, because the source declares the channels as separate
vectors, not as a sequence of pairs. -/
theorem C8_pairs_counterexample :
    ¬ ∀ p : Parameters ℚ, p.tau_stc.length = p.q_stc.length := by
  intro hall
  exact absurd (hall mismatchParams) (by decide)

/-- Claim C8 (amended): the channels are stored as separate
time-constant and jump vectors, so a length mismatch is representable;
equal lengths are enforced by configuration-time validation, which
rejects any candidate with mismatched stc or sfa lists. -/
theorem C8_lists_validated (P : Parameters K) (d : Dict K) :
    ((d.tau_stc.getD P.tau_stc).length ≠ (d.q_stc.getD P.q_stc).length →
      Parameters.set P d = .error .badProperty) ∧
    ((d.tau_sfa.getD P.tau_sfa).length ≠ (d.q_sfa.getD P.q_sfa).length →
      Parameters.set P d = .error .badProperty) := by
  constructor
  · intro hne
    have hne' : (apply_dict P d).tau_stc.length
        ≠ (apply_dict P d).q_stc.length := hne
    unfold Parameters.set
    rw [if_pos hne']
  · intro hne
    have hne' : (apply_dict P d).tau_sfa.length
        ≠ (apply_dict P d).q_sfa.length := hne
    unfold Parameters.set
    by_cases h1 : (apply_dict P d).tau_stc.length
        ≠ (apply_dict P d).q_stc.length
    · rw [if_pos h1]
    · rw [if_neg h1, if_pos hne']


/-- Witness for C8 (amended): the spec §8 invalid candidate — three stc
time constants, two jumps — is rejected. -/
theorem C8_lists_validated_witness :
    (badDict.tau_stc.getD Pq.tau_stc).length
        ≠ (badDict.q_stc.getD Pq.q_stc).length ∧
    Parameters.set Pq badDict = .error .badProperty :=
  ⟨by decide, (C8_lists_validated Pq badDict).1 (by decide)⟩

/-- Claim C9: the recordable accessors (membrane potential, adaptive
threshold total, excitatory and inhibitory synaptic currents) never
mutate the neuron, and two consecutive reads with no intervening step
return identical values. -/
theorem C9_recordable_reads (n : Neuron K) :
    (get_V_m_ n).2 = n ∧
    (get_V_m_ ((get_V_m_ n).2)).1 = (get_V_m_ n).1 ∧
    (get_E_sfa_ n).2 = n ∧
    (get_E_sfa_ ((get_E_sfa_ n).2)).1 = (get_E_sfa_ n).1 ∧
    (get_input_currents_ex_ n).2 = n ∧
    (get_input_currents_ex_ ((get_input_currents_ex_ n).2)).1
      = (get_input_currents_ex_ n).1 ∧
    (get_input_currents_in_ n).2 = n ∧
    (get_input_currents_in_ ((get_input_currents_in_ n).2)).1
      = (get_input_currents_in_ n).1 :=
  ⟨rfl, rfl, rfl, rfl, rfl, rfl, rfl, rfl⟩

/-- Claim C10: every connection test accepts only receptor type 0 —
any other receptor type makes all three handlers throw
`UnknownReceptorType`; receptor type 0 returns port 0 for spike and
current events with the neuron untouched, and connects the logging
device for data-logging requests without modifying `P_` or `S_`. -/
theorem C10_receptor_gate (n : Neuron K) (rt : Int) :
    (rt ≠ 0 →
      handles_spike_event n rt = .error (.unknownReceptorType rt) ∧
      handles_current_event n rt = .error (.unknownReceptorType rt) ∧
      handles_logging_request n rt = .error (.unknownReceptorType rt)) ∧
    handles_spike_event n 0 = .ok (0, n) ∧
    handles_current_event n 0 = .ok (0, n) ∧
    (∀ (p : Int) (n' : Neuron K),
      handles_logging_request n 0 = .ok (p, n') →
      n'.P = n.P ∧ n'.S = n.S) := by
  refine ⟨?_, ?_, ?_, ?_⟩
  · intro h
    exact ⟨by simp [handles_spike_event, h],
      by simp [handles_current_event, h],
      by simp [handles_logging_request, h]⟩
  · simp [handles_spike_event]
  · simp [handles_current_event]
  · intro p n' h
    simp only [handles_logging_request, if_neg (by simp : ¬ (0 : Int) ≠ 0),
      connect_logging_device] at h
    injection h with hi
    have h1 : n' = { n with B := { n.B with logger_conns := n.B.logger_conns + 1 } } := by
      have := congrArg Prod.snd hi
      simpa using this.symm
    rw [h1]
    exact ⟨rfl, rfl⟩

/-- Witness for C10: concrete receptor types 5 (rejected) and 0
(accepted) on the rational neuron. -/
theorem C10_receptor_gate_witness :
    handles_spike_event Nq 5 = .error (.unknownReceptorType 5) ∧
    handles_spike_event Nq 0 = .ok (0, Nq) :=
  ⟨((C10_receptor_gate Nq 5).1 (by decide)).1,
    (C10_receptor_gate Nq 0).2.1⟩

end GifPsc
